import Mathlib

set_option maxRecDepth 16384

/-!
Verification of the physionet-to-roda scraper pipeline.

The HTML document trees that BeautifulSoup produces are modelled by the
inductive type `Node`; BeautifulSoup's `find` / `find_next` traverse the
document in pre-order ("document order"), which we model by flattening the
tree and searching by index.
-/

/-- An HTML node as produced by parsing a page: either a text node
(NavigableString) or an element with a tag name, attributes and children. -/
inductive Node where
  | text (s : String)
  | elem (tag : String) (attrs : List (String × String)) (children : List Node)

/-!
Models of the Python string methods the script uses. They are written as
structural recursion over the character list so that every concrete run of
the pipeline evaluates inside the kernel.
-/

/-- Python str.split(sep) for a one-character separator: the pieces between
occurrences of sep, empty pieces included. -/
def splitOnCharList (c : Char) : List Char → List (List Char)
  | [] => [[]]
  | a :: as =>
    let r := splitOnCharList c as
    if a == c then [] :: r
    else
      match r with
      | [] => [[a]]
      | h :: t => (a :: h) :: t

/-- Python str.split(sep) on strings, one-character separator. -/
def splitOnChar (c : Char) (s : String) : List String :=
  (splitOnCharList c s.data).map (fun l => ⟨l⟩)

/-- Python str.replace(c, empty): every occurrence of the character is
removed. -/
def removeChar (c : Char) (s : String) : String :=
  ⟨s.data.filter (fun a => a != c)⟩

/-- Python str.strip(): leading and trailing whitespace removed. -/
def pyStrip (s : String) : String :=
  ⟨((s.data.dropWhile Char.isWhitespace).reverse.dropWhile Char.isWhitespace).reverse⟩

/-- Python sep.join(parts). -/
def joinWith (sep : String) : List String → String
  | [] => ""
  | [s] => s
  | s :: rest => s ++ sep ++ joinWith sep rest

/-- Does the second list occur as a leading segment of the first? -/
def listStartsWith : List Char → List Char → Bool
  | _, [] => true
  | [], _ :: _ => false
  | a :: as, b :: bs => a == b && listStartsWith as bs

/-- Does the second list occur contiguously anywhere inside the first? -/
def containsSeq : List Char → List Char → Bool
  | [], pat => pat.isEmpty
  | l :: rest, pat => listStartsWith (l :: rest) pat || containsSeq rest pat

/-- Tag name of an element node; text nodes have none. -/
def Node.tagName : Node → Option String
  | .text _ => none
  | .elem t _ _ => some t

/-- Attribute lookup on an element node. -/
def Node.attr (n : Node) (key : String) : Option String :=
  match n with
  | .text _ => none
  | .elem _ attrs _ => (attrs.find? (fun p => p.1 == key)).map (fun p => p.2)

/-- Direct children of a node. -/
def Node.children : Node → List Node
  | .text _ => []
  | .elem _ _ cs => cs

/-- Does this node carry the given tag name? -/
def Node.isTag (n : Node) (t : String) : Bool := n.tagName == some t

/-- BeautifulSoup's Tag.string: a text node is its own string; an element
with exactly one child has that child's string; otherwise None. -/
def Node.string : Node → Option String
  | .text s => some s
  | .elem _ _ [c] => Node.string c
  | .elem _ _ _ => none

mutual
/-- Pre-order (document-order) flattening of a node: the node itself
followed by all of its descendants, matching BeautifulSoup's
next_elements traversal. -/
def flatten : Node → List Node
  | .text s => [.text s]
  | .elem t a cs => .elem t a cs :: flattenL cs
/-- Pre-order flattening of a forest of sibling nodes. -/
def flattenL : List Node → List Node
  | [] => []
  | c :: cs => flatten c ++ flattenL cs
end

mutual
/-- BeautifulSoup's get_text: concatenation of all text descendants. -/
def getText : Node → String
  | .text s => s
  | .elem _ _ cs => getTextL cs
/-- Concatenated text of a forest of sibling nodes. -/
def getTextL : List Node → String
  | [] => ""
  | c :: cs => getText c ++ getTextL cs
end

mutual
/-- Model of the markdownify conversion applied by the script: text content
is kept, emphasis and strong become inline markers, anchors become markdown
links, paragraphs end with a blank line, and every other tag (span, div,
...) is transparent and renders as its contents. -/
def md : Node → String
  | .text s => s
  | .elem t attrs cs =>
    let inner := mdL cs
    if t == "em" then "*" ++ inner ++ "*"
    else if t == "strong" then "**" ++ inner ++ "**"
    else if t == "a" then
      "[" ++ inner ++ "](" ++ (((attrs.find? (fun p => p.1 == "href")).map (fun p => p.2)).getD "") ++ ")"
    else if t == "p" then inner ++ "\n\n"
    else inner
/-- Markdown rendering of a forest of sibling nodes. -/
def mdL : List Node → String
  | [] => ""
  | c :: cs => md c ++ mdL cs
end

/-- The script always converts via md(str(x)); when the tree search returned
no node, Python renders str(None) as the four-character string "None", which
markdownify passes through unchanged. -/
def mdOpt : Option Node → String
  | some n => md n
  | none => "None"

/-- Index (in document order) of the first node satisfying the predicate:
the position at which BeautifulSoup's find locates its result. -/
def Node.findIdxDoc (doc : Node) (p : Node → Bool) : Option Nat :=
  (flatten doc).findIdx? p

/-- BeautifulSoup's find_next from the node at document-order index i:
the first match strictly after i in document order (descendants of the
node at i included). -/
def Node.findNextFrom (doc : Node) (i : Nat) (p : Node → Bool) : Option Node :=
  ((flatten doc).drop (i + 1)).find? p

/-- BeautifulSoup's find_all: every matching node in document order. -/
def Node.findAllDoc (doc : Node) (p : Node → Bool) : List Node :=
  (flatten doc).filter p

/-- Index of the first heading with the given tag whose string is exactly s,
as in html.find(tag, string=s). -/
def headingIdx (html : Node) (tag s : String) : Option Nat :=
  html.findIdxDoc (fun n => n.isTag tag && n.string == some s)

/-- md(str(header.find_next(tag))) for the header at index i. -/
def mdNextTag (html : Node) (i : Nat) (tag : String) : String :=
  mdOpt (html.findNextFrom i (fun n => n.isTag tag))

/-!
Configuration constants of the script, copied from its CONFIGURATION block.
-/

def START : Nat := 0
def END : Nat := 0
def BASE_URL : String := "https://physionet.org"
def CONTACT_URL : String := "https://physionet.org/about/#contact"
def UPDATE_FREQUENCY : String := "Not updated"
def DEFAULT_DESCRIPTION : String := "No description provided."
def DEFAULT_MANAGED_BY : String := "[MIT Laboratory for Computational Physiology](http://lcp.mit.edu/)"
def DEFAULT_LICENSE : String := "https://physionet.org/content/adfecgdb/view-license/1.0.0/"
def DEFAULT_S3_BUCKET : String := "physionet-pds"
def DEFAULT_RESOURCE_DESCRIPTION : String := "Project data files"
def SINGLE_ENTRY_NAME : String := "PhysioNet Open Datasets"
def SINGLE_ENTRY_DESCRIPTION : String := "A collection of datasets provided by the [MIT Laboratory for Computational Physiology](http://lcp.mit.edu/)"
def SINGLE_ENTRY_DOCUMENTATION : String := "https://physionet.org/about/database/"
def SINGLE_ENTRY_TAGS : List String := ["aws-pds", "life sciences"]
def STANDARD_CITATION : String :=
  " Please include the standard citation for PhysioNet: Goldberger, A., Amaral, L., Glass, L., Hausdorff, J., Ivanov, P. C., Mark, R., ... & Stanley, H. E. (2000). PhysioBank, PhysioToolkit, and PhysioNet: Components of a new research resource for complex physiologic signals. Circulation [Online]. 101 (23), pp. e215â€“e220."

/-- One resource descriptor of a RODA record. The Python dict keys
Description / ARN / Region / Type become fields (Type is spelled with a
trailing tick because it is a Lean keyword). -/
structure Resource where
  Description : String
  ARN : String
  Region : String
  Type' : String
  deriving DecidableEq

/-- One PhysioNet dataset entry, mirroring class PhysioNetDB. -/
structure PhysioNetDB where
  entry_id : String
  url : String
  name : String
  short_description : String
  description : String
  data_license : String
  tags : List String
  contact : String
  documentation : String
  managed_by : String
  update_frequency : String
  resources : List Resource
  deriving DecidableEq

/-- PhysioNetDB.__init__: the constructor seeds the fixed fields, the two
baseline tags, and the single resource descriptor derived from entry_id. -/
def PhysioNetDB.init (entry_id url name short_description : String) : PhysioNetDB :=
  { entry_id := entry_id
    url := BASE_URL ++ url
    name := name
    short_description := short_description
    description := ""
    data_license := ""
    tags := ["aws-pds", "life sciences"]
    contact := CONTACT_URL
    documentation := BASE_URL ++ url
    managed_by := DEFAULT_MANAGED_BY
    update_frequency := UPDATE_FREQUENCY
    resources := [{ Description := DEFAULT_RESOURCE_DESCRIPTION
                    ARN := "arn:aws:s3:::" ++ DEFAULT_S3_BUCKET ++ "/" ++ entry_id
                    Region := "us-east-1"
                    Type' := "S3 Bucket" }] }

/-- The description computed by extract_description from the page alone:
the five heading candidates are tried in order, first match wins, and the
paragraph following the winner is rendered; with no match the fixed default
is used. Every branch of the Python method only assigns self.description,
so the method factors through this pure computation. -/
def computeDescription (html : Node) : String :=
  match headingIdx html "h3" "Abstract" with
  | some i => mdNextTag html i "p"
  | none =>
  match headingIdx html "h2" "Abstract" with
  | some i => mdNextTag html i "p"
  | none =>
  match headingIdx html "h3" "Introduction" with
  | some i => mdNextTag html i "p"
  | none =>
  match headingIdx html "h3" "Data Description" with
  | some i => mdNextTag html i "p"
  | none =>
  match headingIdx html "h3" "Data Collection" with
  | some i => mdNextTag html i "p"
  | none => DEFAULT_DESCRIPTION

/-- PhysioNetDB.extract_description. -/
def PhysioNetDB.extract_description (self : PhysioNetDB) (html : Node) : PhysioNetDB :=
  { self with description := computeDescription html }

/-- The badge-styled span elements matched by
html.find_all(span, class badge badge-pn). -/
def badgeSpan (n : Node) : Bool :=
  n.isTag "span" && n.attr "class" == some "badge badge-pn"

/-- PhysioNetDB.extract_tags: append the text of every badge span to the
tag list (a no-op when the page carries none). -/
def PhysioNetDB.extract_tags (self : PhysioNetDB) (html : Node) : PhysioNetDB :=
  { self with tags := self.tags ++ (html.findAllDoc badgeSpan).map getText }

/-- The bold license label searched by extract_license. -/
def licenseLabel (n : Node) : Bool :=
  n.isTag "strong" && n.string == some "License (for files):"

/-- Outcome of the license lookup: none models the uncaught Python
exception (find_next returned None, or the anchor has no href, so
None.attrs / attrs picking raises); some none is the handled no-label
case; some (some url) is a found license URL. -/
def licenseResult (html : Node) : Option (Option String) :=
  match html.findIdxDoc licenseLabel with
  | none => some none
  | some i =>
    match html.findNextFrom i (fun n => n.isTag "a") with
    | none => none
    | some a =>
      match a.attr "href" with
      | none => none
      | some h => some (some (BASE_URL ++ h))

/-- PhysioNetDB.extract_license; none models the method raising. -/
def PhysioNetDB.extract_license (self : PhysioNetDB) (html : Node) : Option PhysioNetDB :=
  match licenseResult html with
  | none => none
  | some none => some self
  | some (some url) => some { self with data_license := url }

/-- The secondary-alert container whose presence gates extract_citation. -/
def alertSecondary (n : Node) : Bool :=
  n.isTag "div" && n.attr "class" == some "alert alert-secondary"

/-- Literal-substring search, modelling re.search of the plain pattern the
script compiles: true iff the pattern occurs somewhere in s. -/
def occursIn (pat s : String) : Bool :=
  containsSeq s.data pat.data

/-- The exact bold label of citation branch (a). -/
def origPubLabel (n : Node) : Bool :=
  n.isTag "strong" && n.string == some "When using this resource, please cite the original publication:"

/-- The bold label of citation branch (b): its string matches the compiled
pattern anywhere. -/
def pleaseCiteLabel (n : Node) : Bool :=
  n.isTag "strong" &&
    (match n.string with
     | some s => occursIn "When using this resource, please cite" s
     | none => false)

/-- The text extract_citation appends to the description, or none when the
secondary-alert container is absent and the method does nothing. Branch (b)
strips literal span tag markers from str(...) before converting; span tags
are transparent to md, so that rendering is md of the found span. Every
branch of the Python method only appends to self.description, so the method
factors through this pure computation. -/
def citationAppend (html : Node) : Option String :=
  match html.findIdxDoc alertSecondary with
  | none => none
  | some _ =>
    match html.findIdxDoc origPubLabel with
    | some i =>
      some (" When using this resource, please cite the original publication: " ++ mdNextTag html i "p")
    | none =>
      match html.findIdxDoc pleaseCiteLabel with
      | some j =>
        some (" When using this resource, please cite: " ++ mdNextTag html j "span")
      | none => some STANDARD_CITATION

/-- PhysioNetDB.extract_citation. -/
def PhysioNetDB.extract_citation (self : PhysioNetDB) (html : Node) : PhysioNetDB :=
  match citationAppend html with
  | none => self
  | some s => { self with description := self.description ++ s }

/-- One RODA record, the dict built by generate_separate_roda and by the
single-file driver branch (both use the same keys). -/
structure RodaRecord where
  Name : String
  Description : String
  Documentation : String
  Contact : String
  ManagedBy : String
  UpdateFrequency : String
  Tags : List String
  License : String
  Resources : List Resource
  deriving DecidableEq

/-- PhysioNetDB.generate_separate_roda. -/
def PhysioNetDB.generate_separate_roda (self : PhysioNetDB) : RodaRecord :=
  { Name := self.name
    Description := self.description
    Documentation := self.documentation
    Contact := self.contact
    ManagedBy := self.managed_by
    UpdateFrequency := self.update_frequency
    Tags := self.tags
    License := self.data_license
    Resources := self.resources }

/-- PhysioNetDB.generate_single_roda: the Python takes self.resources[0],
assigns its Description key to self.short_description in place, and returns
that same dict. The in-place mutation is modelled by also returning the
updated entry, whose head resource is the returned descriptor; none models
the IndexError on an empty resource list. -/
def PhysioNetDB.generate_single_roda (self : PhysioNetDB) : Option (Resource × PhysioNetDB) :=
  match self.resources with
  | [] => none
  | r :: rest =>
    let updated := { r with Description := self.short_description }
    some (updated, { self with resources := updated :: rest })

/-- PhysioNetDB.as_csv. -/
def PhysioNetDB.as_csv (self : PhysioNetDB) : List String :=
  [self.name, self.contact, self.managed_by, self.data_license, self.documentation,
   self.update_frequency, joinWith " " self.tags, removeChar ',' self.short_description]

/-!
The Catalog Lister: the module-level listing code between the class and the
per-entry loop. Failure of the surrounding Python with an uncaught
exception (AttributeError, TypeError, KeyError, IndexError) is modelled by
none.
-/

/-- Is this node a text node, and if so its contents? Used for
next_sibling.replace, which only works on a NavigableString. -/
def Node.asText : Node → Option String
  | .text s => some s
  | .elem _ _ _ => none

/-- First element (Tag) in a sibling list, skipping text nodes, as
find_next_sibling() with no arguments does. -/
def firstTagSibling : List Node → Option Node
  | [] => none
  | .text _ :: rest => firstTagSibling rest
  | .elem t a cs :: _ => some (.elem t a cs)

mutual
/-- Search one node (with the nodes following it at its own level) for the
h2 heading with the requested id: if the node is the heading, the result is
its first later element sibling, as find_next_sibling() returns; otherwise
the search descends into the children. -/
def headerNextSiblingN (dbType : String) (n : Node) (after : List Node) : Option (Option Node) :=
  match n with
  | .text _ => none
  | .elem t attrs cs =>
    if t == "h2" && (Node.elem t attrs cs).attr "id" == some dbType then
      some (firstTagSibling after)
    else headerNextSiblingL dbType cs
/-- soup.find(h2, id=dbType) followed by find_next_sibling() on the result,
over a forest in document order: the outer none means no such heading (find
returned None and find_next_sibling raises AttributeError); the inner
option is the sibling tag, none when the heading has no later element
sibling. -/
def headerNextSiblingL (dbType : String) : List Node → Option (Option Node)
  | [] => none
  | c :: rest =>
    match headerNextSiblingN dbType c rest with
    | some r => some r
    | none => headerNextSiblingL dbType rest
end

mutual
/-- Search one node (with the nodes following it at its own level) for the
first anchor in document order, as item.a does; the anchor is paired with
its next_sibling, the node immediately after it at its own level, of any
kind, text included. -/
def findAnchorN (n : Node) (after : List Node) : Option (Node × Option Node) :=
  match n with
  | .text _ => none
  | .elem t a cs =>
    if t == "a" then some (.elem t a cs, after.head?)
    else findAnchorL cs
/-- item.a together with its next_sibling, over a forest of siblings. -/
def findAnchorL : List Node → Option (Node × Option Node)
  | [] => none
  | c :: rest =>
    match findAnchorN c rest with
    | some r => some r
    | none => findAnchorL rest
end

/-- item.a together with its next_sibling, for the children of one li. -/
def findAnchorWithNext (cs : List Node) : Option (Node × Option Node) :=
  findAnchorL cs

/-- The body of the listing loop for one li item: id is segment 2 of the
anchor href split on slashes, name is the anchor text, and the short
description is the following text node with all colons removed, surrounding
whitespace stripped, and newlines removed. none models the loop body
raising (no anchor, no href, short href, or a missing or non-text
next sibling). -/
def listItemEntry (li : Node) : Option PhysioNetDB := do
  let (anchor, sib?) ← findAnchorWithNext li.children
  let href ← anchor.attr "href"
  let entry_id ← (splitOnChar '/' href).get? 2
  let name := getText anchor
  let sib ← sib?
  let txt ← sib.asText
  let desc := removeChar '\n' (pyStrip (removeChar ':' txt))
  some (PhysioNetDB.init entry_id href name desc)

/-- The listing loop over the direct children of the located sibling tag:
children named li contribute one entry each, all other children are
skipped. -/
def processItems : List Node → Option (List PhysioNetDB)
  | [] => some []
  | item :: rest =>
    if item.isTag "li" then
      match listItemEntry item with
      | none => none
      | some db => (processItems rest).map (fun l => db :: l)
    else processItems rest

/-- The Catalog Lister: locate the heading with the requested id, take its
next sibling tag, and build one entry per li child of that sibling. -/
def listEntries (doc : Node) (dbType : String) : Option (List PhysioNetDB) :=
  match headerNextSiblingL dbType [doc] with
  | none => none
  | some none => none
  | some (some sib) => processItems sib.children

/-!
The Pipeline Driver: per-entry extraction, the output-format branch, and
the optional CSV export.
-/

/-- The body of the per-entry loop: the four extraction steps run in order
on the fetched detail page; none models extract_license raising and
aborting the run. -/
def processEntry (e : PhysioNetDB) (html : Node) : Option PhysioNetDB :=
  match ((e.extract_description html).extract_tags html).extract_license html with
  | none => none
  | some e3 => some (e3.extract_citation html)

/-- The effective END bound: END = 0 means the whole list. -/
def effectiveEnd (dbs : List PhysioNetDB) : Nat :=
  if END = 0 then dbs.length else END

/-- The open_databases slice the driver iterates, Python dbs start to end. -/
def pipelineSlice (dbs : List PhysioNetDB) : List PhysioNetDB :=
  (dbs.take (effectiveEnd dbs)).drop START

/-- One file written under output/: a YAML record or the debug CSV. -/
inductive OutFile where
  | yamlFile (fname : String) (record : RodaRecord)
  | csvFile (fname : String) (rows : List (List String))
  deriving DecidableEq

/-- The CSV header row of the debug export. -/
def CSV_HEADER : List String :=
  ["name", "contact", "managed_by", "license", "documentation",
   "update_frequency", "tags", "description"]

/-- The optional debug CSV: note the Python iterates the FULL entry list
here, not the configured slice. -/
def csvFiles (csvFlag : Bool) (dbs : List PhysioNetDB) : List OutFile :=
  if csvFlag then
    [OutFile.csvFile "output/databases.csv" (CSV_HEADER :: dbs.map PhysioNetDB.as_csv)]
  else []

/-- Append a tag only if it is not already present, the dedup step of the
single-file aggregation loop. -/
def addTag (acc : List String) (t : String) : List String :=
  if t ∈ acc then acc else acc ++ [t]

/-- The aggregate tag list of single-file mode: seeded with the fixed
defaults and extended, entry by entry and tag by tag, with each tag not
already present. -/
def aggregateTags (dbs : List PhysioNetDB) : List String :=
  dbs.foldl (fun acc d => d.tags.foldl addTag acc) SINGLE_ENTRY_TAGS

/-- The shared record of single-file mode. The one Python loop both
appends each generate_single_roda resource and merges each entry tag list;
the two folds below compute the same Resources and Tags values. none
models generate_single_roda raising on an entry without resources. -/
def singleRecord (dbs : List PhysioNetDB) : Option RodaRecord := do
  let resources ← dbs.mapM (fun d => (d.generate_single_roda).map Prod.fst)
  some
    { Name := SINGLE_ENTRY_NAME
      Description := SINGLE_ENTRY_DESCRIPTION
      Documentation := SINGLE_ENTRY_DOCUMENTATION
      Contact := CONTACT_URL
      ManagedBy := DEFAULT_MANAGED_BY
      UpdateFrequency := UPDATE_FREQUENCY
      Tags := aggregateTags dbs
      License := DEFAULT_LICENSE
      Resources := resources }

/-- The output-format branch of the driver followed by the optional CSV
export, over the already-extracted entry list: the files written and the
process exit status. In the unrecognized-format branch the Python prints
an error and calls sys.exit(1) at once, so no file at all is written, the
CSV included; the recognized branches fall through to the CSV block and
exit 0. none models an uncaught exception in single mode. -/
def driverRun (format : String) (csvFlag : Bool) (dbs : List PhysioNetDB) :
    Option (List OutFile × Nat) :=
  let sliced := pipelineSlice dbs
  if format == "separate" then
    some (sliced.map (fun d =>
      OutFile.yamlFile ("output/" ++ d.entry_id ++ ".yaml") d.generate_separate_roda)
      ++ csvFiles csvFlag dbs, 0)
  else if format == "single" then
    match singleRecord sliced with
    | none => none
    | some r => some ([OutFile.yamlFile "output/single.yaml" r] ++ csvFiles csvFlag dbs, 0)
  else
    some ([], 1)

/-- The index fixture of the end-to-end listing property. -/
def demoIndexDoc : Node :=
  .elem "body" []
    [.elem "h2" [("id", "open")] [.text "Open Databases"],
     .elem "ul" []
       [.elem "li" []
          [.elem "a" [("href", "/content/abc123/1.0.0/")] [.text "Demo DB"],
           .text ": a demo."]]]




/-!
Concrete document fixtures used by the witnesses and counterexamples.
-/

/-- A detail page carrying both an Abstract h3 and an Introduction h3, each
followed by its paragraph. -/
def docAbsIntro : Node :=
  .elem "body" []
    [.elem "h3" [] [.text "Abstract"],
     .elem "p" [] [.text "The abstract."],
     .elem "h3" [] [.text "Introduction"],
     .elem "p" [] [.text "The intro."]]

/-- A detail page with no recognized structure at all. -/
def emptyBodyDoc : Node := .elem "body" [] []

/-- A detail page whose license label is not followed by any anchor. -/
def licenseCrashDoc : Node :=
  .elem "body" [] [.elem "strong" [] [.text "License (for files):"]]

/-- A detail page with one badge span. -/
def badgeDoc : Node :=
  .elem "body" [] [.elem "span" [("class", "badge badge-pn")] [.text "ecg"]]

/-- A detail page whose badge span repeats a baseline tag. -/
def dupBadgeDoc : Node :=
  .elem "body" [] [.elem "span" [("class", "badge badge-pn")] [.text "aws-pds"]]

/-- A detail page with the secondary-alert container and both citation
labels present at once. -/
def citeBothDoc : Node :=
  .elem "body" []
    [.elem "div" [("class", "alert alert-secondary")] [.text "note"],
     .elem "strong" [] [.text "When using this resource, please cite the original publication:"],
     .elem "p" [] [.text "Original paper."],
     .elem "strong" [] [.text "When using this resource, please cite this page:"],
     .elem "span" [] [.text "Some page."]]

/-- An index page whose heading is followed by a paragraph instead of a
list. -/
def nonListDoc : Node :=
  .elem "body" []
    [.elem "h2" [("id", "open")] [.text "Open"],
     .elem "p" [] [.text "hello"]]

/-!
Claim theorems.
-/

/-- C1: extract_description tries the heading candidates in the fixed
priority order h3 Abstract, h2 Abstract, h3 Introduction, h3 Data
Description, h3 Data Collection, assigns the rendered text of the
paragraph following the first matching heading, and assigns exactly the
fixed default string when no candidate matches. -/
theorem C1_extract_description_priority (e : PhysioNetDB) (html : Node) :
    (∀ i p', headingIdx html "h3" "Abstract" = some i →
      html.findNextFrom i (fun n => n.isTag "p") = some p' →
      (e.extract_description html).description = md p')
    ∧ (headingIdx html "h3" "Abstract" = none →
       ∀ i p', headingIdx html "h2" "Abstract" = some i →
      html.findNextFrom i (fun n => n.isTag "p") = some p' →
      (e.extract_description html).description = md p')
    ∧ (headingIdx html "h3" "Abstract" = none →
       headingIdx html "h2" "Abstract" = none →
       ∀ i p', headingIdx html "h3" "Introduction" = some i →
      html.findNextFrom i (fun n => n.isTag "p") = some p' →
      (e.extract_description html).description = md p')
    ∧ (headingIdx html "h3" "Abstract" = none →
       headingIdx html "h2" "Abstract" = none →
       headingIdx html "h3" "Introduction" = none →
       ∀ i p', headingIdx html "h3" "Data Description" = some i →
      html.findNextFrom i (fun n => n.isTag "p") = some p' →
      (e.extract_description html).description = md p')
    ∧ (headingIdx html "h3" "Abstract" = none →
       headingIdx html "h2" "Abstract" = none →
       headingIdx html "h3" "Introduction" = none →
       headingIdx html "h3" "Data Description" = none →
       ∀ i p', headingIdx html "h3" "Data Collection" = some i →
      html.findNextFrom i (fun n => n.isTag "p") = some p' →
      (e.extract_description html).description = md p')
    ∧ (headingIdx html "h3" "Abstract" = none →
       headingIdx html "h2" "Abstract" = none →
       headingIdx html "h3" "Introduction" = none →
       headingIdx html "h3" "Data Description" = none →
       headingIdx html "h3" "Data Collection" = none →
      (e.extract_description html).description = DEFAULT_DESCRIPTION) := by
  unfold PhysioNetDB.extract_description computeDescription mdNextTag mdOpt
  refine ⟨?_, ?_, ?_, ?_, ?_, ?_⟩ <;> intros <;> simp_all

/-- C1 witness: on the fixture with both an Abstract h3 and an
Introduction h3, the Abstract branch wins and its paragraph is assigned. -/
theorem C1_witness :
    ((PhysioNetDB.init "x" "/content/x/1.0.0/" "X" "sd").extract_description docAbsIntro).description
      = "The abstract.\n\n" :=
  ((C1_extract_description_priority (PhysioNetDB.init "x" "/content/x/1.0.0/" "X" "sd")
      docAbsIntro).1 1 (.elem "p" [] [.text "The abstract."]) rfl rfl).trans rfl

/-- C2 counterexample: on the fixture the single produced entry has
shortDescription "a demo." with the trailing period kept, not "a demo" as
claimed: str.replace removes the colons and strip removes surrounding
whitespace, but nothing removes the final period. -/
theorem C2_counterexample :
    (listEntries demoIndexDoc "open").map (fun l => l.map PhysioNetDB.short_description)
      ≠ some ["a demo"] := by
  decide

/-- C2 amended: the index fixture yields exactly one entry with id abc123
(segment index 2 of the href split on slashes), name Demo DB verbatim from
the anchor text, and shortDescription "a demo." with the trailing period
preserved. -/
theorem C2_amended_listing :
    listEntries demoIndexDoc "open"
      = some [PhysioNetDB.init "abc123" "/content/abc123/1.0.0/" "Demo DB" "a demo."]
    ∧ (PhysioNetDB.init "abc123" "/content/abc123/1.0.0/" "Demo DB" "a demo.").entry_id = "abc123"
    ∧ (PhysioNetDB.init "abc123" "/content/abc123/1.0.0/" "Demo DB" "a demo.").name = "Demo DB"
    ∧ (PhysioNetDB.init "abc123" "/content/abc123/1.0.0/" "Demo DB" "a demo.").short_description
        = "a demo."
    ∧ (splitOnChar '/' "/content/abc123/1.0.0/").get? 2 = some "abc123" :=
  ⟨rfl, rfl, rfl, rfl, rfl⟩

/-- C3: extract_citation leaves the entry unchanged when the detail page
has no secondary-alert container; when the container is present exactly one
of three branches fires, first match wins: (a) the exact original
publication label appends the fixed lead-in plus the following paragraph,
else (b) a label matching the please-cite pattern appends the fixed lead-in
plus the following span, else (c) the fixed standard citation is appended. -/
theorem C3_extract_citation_priority (e : PhysioNetDB) (html : Node) :
    (html.findIdxDoc alertSecondary = none → e.extract_citation html = e)
    ∧ (∀ k i, html.findIdxDoc alertSecondary = some k →
        html.findIdxDoc origPubLabel = some i →
        (e.extract_citation html).description =
          e.description ++
            (" When using this resource, please cite the original publication: "
              ++ mdNextTag html i "p"))
    ∧ (∀ k j, html.findIdxDoc alertSecondary = some k →
        html.findIdxDoc origPubLabel = none →
        html.findIdxDoc pleaseCiteLabel = some j →
        (e.extract_citation html).description =
          e.description ++
            (" When using this resource, please cite: " ++ mdNextTag html j "span"))
    ∧ (∀ k, html.findIdxDoc alertSecondary = some k →
        html.findIdxDoc origPubLabel = none →
        html.findIdxDoc pleaseCiteLabel = none →
        (e.extract_citation html).description = e.description ++ STANDARD_CITATION) := by
  unfold PhysioNetDB.extract_citation citationAppend
  refine ⟨?_, ?_, ?_, ?_⟩ <;> intros <;> simp_all

/-- C3 witness: on the fixture with the container and both labels present,
branch (a) fires and the original publication paragraph is appended. -/
theorem C3_witness :
    ((PhysioNetDB.init "x" "/content/x/1.0.0/" "X" "sd").extract_citation citeBothDoc).description
      = " When using this resource, please cite the original publication: Original paper.\n\n" :=
  ((C3_extract_citation_priority (PhysioNetDB.init "x" "/content/x/1.0.0/" "X" "sd")
      citeBothDoc).2.1 1 3 rfl rfl).trans rfl

/-- Appending on the right cannot disturb the first two elements. -/
theorem take_two_append (l m : List String) (a b : String) (h : l.take 2 = [a, b]) :
    (l ++ m).take 2 = [a, b] := by
  match l, h with
  | x :: y :: rest, h => simpa using h

/-- A list whose first two elements exist has length at least two. -/
theorem take_two_length (l : List String) (a b : String) (h : l.take 2 = [a, b]) :
    2 ≤ l.length := by
  match l, h with
  | x :: y :: rest, _ => simp

/-- C4: the tag list carries the two fixed baseline tags at construction
and after every extraction step; extract_tags only appends, the other
three steps leave tags untouched, so a fully processed entry always has at
least two tags. -/
theorem C4_tags_baseline (entry_id url name sd : String) (html : Node) :
    (PhysioNetDB.init entry_id url name sd).tags = ["aws-pds", "life sciences"]
    ∧ (∀ e : PhysioNetDB, e.tags.take 2 = ["aws-pds", "life sciences"] →
        ((e.extract_description html).tags = e.tags
         ∧ (e.extract_tags html).tags = e.tags ++ (html.findAllDoc badgeSpan).map getText
         ∧ (e.extract_tags html).tags.take 2 = ["aws-pds", "life sciences"]
         ∧ (∀ e3, e.extract_license html = some e3 → e3.tags = e.tags)
         ∧ (e.extract_citation html).tags = e.tags))
    ∧ (∀ e', processEntry (PhysioNetDB.init entry_id url name sd) html = some e' →
        e'.tags.take 2 = ["aws-pds", "life sciences"] ∧ 2 ≤ e'.tags.length) := by
  refine ⟨rfl, ?_, ?_⟩
  · intro e he
    refine ⟨rfl, rfl, take_two_append _ _ _ _ he, ?_, ?_⟩
    · intro e3 h3
      unfold PhysioNetDB.extract_license at h3
      split at h3
      · exact absurd h3 (by simp)
      · cases h3; rfl
      · cases h3; rfl
    · unfold PhysioNetDB.extract_citation
      split
      · rfl
      · rfl
  · intro e' h'
    unfold processEntry at h'
    split at h'
    · exact absurd h' (by simp)
    · rename_i e3 h3
      cases h'
      have hbase : (PhysioNetDB.init entry_id url name sd).tags.take 2
          = ["aws-pds", "life sciences"] := rfl
      have h2 : (((PhysioNetDB.init entry_id url name sd).extract_description
          html).extract_tags html).tags.take 2 = ["aws-pds", "life sciences"] :=
        take_two_append _ _ _ _ hbase
      have h3tags : e3.tags = (((PhysioNetDB.init entry_id url name sd).extract_description
          html).extract_tags html).tags := by
        unfold PhysioNetDB.extract_license at h3
        split at h3
        · exact absurd h3 (by simp)
        · cases h3; rfl
        · cases h3; rfl
      have hcit : ((e3.extract_citation html)).tags = e3.tags := by
        unfold PhysioNetDB.extract_citation
        split
        · rfl
        · rfl
      rw [hcit, h3tags]
      exact ⟨h2, take_two_length _ _ _ h2⟩

/-- C4 witness: processing a fresh entry against an empty page keeps the
baseline tags and a tag list of length two. -/
theorem C4_witness :
    ({ PhysioNetDB.init "x" "/content/x/1.0.0/" "X" "sd" with
        description := DEFAULT_DESCRIPTION } : PhysioNetDB).tags.take 2
      = ["aws-pds", "life sciences"]
    ∧ 2 ≤ ({ PhysioNetDB.init "x" "/content/x/1.0.0/" "X" "sd" with
        description := DEFAULT_DESCRIPTION } : PhysioNetDB).tags.length :=
  (C4_tags_baseline "x" "/content/x/1.0.0/" "X" "sd" emptyBodyDoc).2.2 _ rfl

/-- C5 counterexample: on a page whose license label is not followed by
any anchor, extract_license raises (find_next returns None and None.attrs
is an AttributeError), modelled by the none result, so the four extractors
are not all total. -/
theorem C5_counterexample :
    (PhysioNetDB.init "x" "/content/x/1.0.0/" "X" "sd").extract_license licenseCrashDoc
      = none := rfl

/-- C5 amended: extract_description, extract_tags and extract_citation are
total and degrade to a default or a no-op when the expected structure is
missing, and extract_license handles the absent label as a no-op; but
extract_license raises (modelled by none) exactly in the case where the
label is present yet not followed by an anchor carrying an href. -/
theorem C5_amended_totality (e : PhysioNetDB) (html : Node) :
    (headingIdx html "h3" "Abstract" = none →
     headingIdx html "h2" "Abstract" = none →
     headingIdx html "h3" "Introduction" = none →
     headingIdx html "h3" "Data Description" = none →
     headingIdx html "h3" "Data Collection" = none →
      (e.extract_description html).description = DEFAULT_DESCRIPTION)
    ∧ (html.findAllDoc badgeSpan = [] → e.extract_tags html = e)
    ∧ (html.findIdxDoc licenseLabel = none → e.extract_license html = some e)
    ∧ (∀ i a h', html.findIdxDoc licenseLabel = some i →
        html.findNextFrom i (fun n => n.isTag "a") = some a →
        a.attr "href" = some h' →
        e.extract_license html = some { e with data_license := BASE_URL ++ h' })
    ∧ (e.extract_license html = none → html.findIdxDoc licenseLabel ≠ none)
    ∧ (html.findIdxDoc alertSecondary = none → e.extract_citation html = e) := by
  refine ⟨?_, ?_, ?_, ?_, ?_, ?_⟩
  · intros
    unfold PhysioNetDB.extract_description computeDescription
    simp_all
  · intro hb
    unfold PhysioNetDB.extract_tags
    simp [hb]
  · intro hl
    unfold PhysioNetDB.extract_license licenseResult
    simp [hl]
  · intro i a h' hi ha hh
    unfold PhysioNetDB.extract_license licenseResult
    simp [hi, ha, hh]
  · intro hn hl
    unfold PhysioNetDB.extract_license licenseResult at hn
    simp [hl] at hn
  · intro ha
    unfold PhysioNetDB.extract_citation citationAppend
    simp [ha]

/-- C5 witness: with no license label on the page the extractor is a
handled no-op. -/
theorem C5_witness :
    (PhysioNetDB.init "x" "/content/x/1.0.0/" "X" "sd").extract_license emptyBodyDoc
      = some (PhysioNetDB.init "x" "/content/x/1.0.0/" "X" "sd") :=
  (C5_amended_totality (PhysioNetDB.init "x" "/content/x/1.0.0/" "X" "sd")
    emptyBodyDoc).2.2.1 rfl

/-- Whatever extract_citation decides to append is a nonempty string:
each branch starts with a fixed nonempty lead-in. -/
theorem citationAppend_pos (html : Node) (s : String) (h : citationAppend html = some s) :
    0 < s.length := by
  unfold citationAppend at h
  split at h
  · exact absurd h (by simp)
  · split at h
    · cases h
      rw [String.length_append]
      have hlead : 0 < " When using this resource, please cite the original publication: ".length := by
        decide
      omega
    · split at h
      · cases h
        rw [String.length_append]
        have hlead : 0 < " When using this resource, please cite: ".length := by decide
        omega
      · cases h
        decide

/-- C6 counterexample: on a page with one badge span, running extract_tags
twice appends the badge twice, so the second run changes the entry and the
operation is not idempotent. -/
theorem C6_counterexample :
    ((PhysioNetDB.init "x" "/content/x/1.0.0/" "X" "sd").extract_tags badgeDoc).extract_tags
        badgeDoc
      ≠ (PhysioNetDB.init "x" "/content/x/1.0.0/" "X" "sd").extract_tags badgeDoc := by
  decide

/-- C6 amended: extract_description is idempotent, and extract_license is
idempotent whenever it succeeds; but extract_tags is idempotent exactly
when the page has no badge spans and extract_citation exactly when the
secondary-alert container is absent — on a page with badges or with the
container, the second run appends again and changes the entry. -/
theorem C6_amended_idempotence (e : PhysioNetDB) (html : Node) :
    ((e.extract_description html).extract_description html = e.extract_description html)
    ∧ (∀ e', e.extract_license html = some e' → e'.extract_license html = some e')
    ∧ (html.findAllDoc badgeSpan = [] →
        (e.extract_tags html).extract_tags html = e.extract_tags html)
    ∧ (html.findAllDoc badgeSpan ≠ [] →
        (e.extract_tags html).extract_tags html ≠ e.extract_tags html)
    ∧ (citationAppend html = none →
        (e.extract_citation html).extract_citation html = e.extract_citation html)
    ∧ (citationAppend html ≠ none →
        (e.extract_citation html).extract_citation html ≠ e.extract_citation html) := by
  refine ⟨rfl, ?_, ?_, ?_, ?_, ?_⟩
  · intro e' h
    cases hl : licenseResult html with
    | none =>
      unfold PhysioNetDB.extract_license at h
      rw [hl] at h
      exact absurd h (by simp)
    | some o =>
      cases o with
      | none =>
        unfold PhysioNetDB.extract_license at h
        rw [hl] at h
        cases h
        unfold PhysioNetDB.extract_license
        rw [hl]
      | some url =>
        unfold PhysioNetDB.extract_license at h
        rw [hl] at h
        cases h
        unfold PhysioNetDB.extract_license
        rw [hl]
  · intro hb
    simp [PhysioNetDB.extract_tags, hb]
  · intro hb heq
    have hlen := congrArg (fun d => d.tags.length) heq
    simp only [PhysioNetDB.extract_tags, List.length_append] at hlen
    have hx : ((html.findAllDoc badgeSpan).map getText).length = 0 := by omega
    simp only [List.length_map] at hx
    exact hb (List.length_eq_zero.mp hx)
  · intro hc
    simp [PhysioNetDB.extract_citation, hc]
  · intro hne heq
    obtain ⟨s, hs⟩ := Option.ne_none_iff_exists'.mp hne
    have hpos := citationAppend_pos html s hs
    have h1 : e.extract_citation html = { e with description := e.description ++ s } := by
      unfold PhysioNetDB.extract_citation
      rw [hs]
    have h2 : ({ e with description := e.description ++ s } : PhysioNetDB).extract_citation html
        = { e with description := (e.description ++ s) ++ s } := by
      unfold PhysioNetDB.extract_citation
      rw [hs]
    rw [h1, h2] at heq
    have hd := congrArg PhysioNetDB.description heq
    simp only at hd
    have hlen := congrArg String.length hd
    rw [String.length_append, String.length_append] at hlen
    omega

/-- C6 witness: against a page with no badges, extract_tags is idempotent. -/
theorem C6_witness :
    ((PhysioNetDB.init "x" "/content/x/1.0.0/" "X" "sd").extract_tags emptyBodyDoc).extract_tags
        emptyBodyDoc
      = (PhysioNetDB.init "x" "/content/x/1.0.0/" "X" "sd").extract_tags emptyBodyDoc :=
  (C6_amended_idempotence (PhysioNetDB.init "x" "/content/x/1.0.0/" "X" "sd")
    emptyBodyDoc).2.2.1 rfl

/-- C7 counterexample: when the heading is followed by a paragraph rather
than a list, the lister does not fail at all — it silently returns the
empty entry sequence. -/
theorem C7_counterexample : listEntries nonListDoc "open" = some [] := rfl

/-- C7 amended: the lister fails (an unhandled error, there is no dedicated
CatalogStructureError in the code) when no heading with the requested id
exists, and also when the heading has no following sibling tag at all; but
when the next sibling tag exists and is not a list it does not fail: it
iterates that sibling's direct children and silently returns the possibly
empty entries built from its li children. -/
theorem C7_amended_lister_failure (doc : Node) (ct : String) :
    (headerNextSiblingL ct [doc] = none → listEntries doc ct = none)
    ∧ (headerNextSiblingL ct [doc] = some none → listEntries doc ct = none)
    ∧ (∀ sib, headerNextSiblingL ct [doc] = some (some sib) →
        listEntries doc ct = processItems sib.children) := by
  refine ⟨?_, ?_, ?_⟩
  · intro h
    unfold listEntries
    rw [h]
  · intro h
    unfold listEntries
    rw [h]
  · intro sib h
    unfold listEntries
    rw [h]

/-- C7 witness: on the fixture whose heading is followed by a paragraph,
the lister proceeds to iterate the paragraph's children. -/
theorem C7_witness :
    listEntries nonListDoc "open"
      = processItems (Node.children (.elem "p" [] [.text "hello"])) :=
  (C7_amended_lister_failure nonListDoc "open").2.2 (.elem "p" [] [.text "hello"]) rfl

/-- C8: with an unrecognized output format the driver writes no file at
all, the debug CSV included, and exits with status 1; with either
recognized format a completed run exits with status 0. -/
theorem C8_unknown_format (format : String) (csvFlag : Bool) (dbs : List PhysioNetDB) :
    (format ≠ "separate" → format ≠ "single" →
      driverRun format csvFlag dbs = some ([], 1))
    ∧ (∀ files code, driverRun "separate" csvFlag dbs = some (files, code) → code = 0)
    ∧ (∀ files code, driverRun "single" csvFlag dbs = some (files, code) → code = 0) := by
  refine ⟨?_, ?_, ?_⟩
  · intro h1 h2
    unfold driverRun
    rw [if_neg (by simpa using h1), if_neg (by simpa using h2)]
  · intro files code h
    unfold driverRun at h
    rw [if_pos (by decide : (("separate" : String) == "separate") = true)] at h
    cases h
    rfl
  · intro files code h
    unfold driverRun at h
    rw [if_neg (by decide : ¬ ((("single" : String) == "separate") = true)),
      if_pos (by decide : (("single" : String) == "single") = true)] at h
    split at h
    · exact absurd h (by simp)
    · cases h
      rfl

/-- C8 witness: the concrete unrecognized format value bogus produces no
files and exit status 1 even with the CSV flag set. -/
theorem C8_witness : driverRun "bogus" true [] = some ([], 1) :=
  (C8_unknown_format "bogus" true []).1 (by decide) (by decide)

/-- Appending a tag only when absent preserves freedom from duplicates. -/
theorem addTag_nodup (acc : List String) (t : String) (h : acc.Nodup) :
    (addTag acc t).Nodup := by
  unfold addTag
  split
  · exact h
  · next hmem => simp [List.nodup_append, h, hmem]

/-- Folding addTag over any tag list preserves freedom from duplicates. -/
theorem foldl_addTag_nodup (ts : List String) (acc : List String) (h : acc.Nodup) :
    (ts.foldl addTag acc).Nodup := by
  induction ts generalizing acc with
  | nil => simpa using h
  | cons t ts ih => exact ih _ (addTag_nodup _ _ h)

/-- Folding the per-entry merge over any entry list preserves freedom from
duplicates. -/
theorem aggregate_fold_nodup (dbs : List PhysioNetDB) (acc : List String) (h : acc.Nodup) :
    (dbs.foldl (fun a d => d.tags.foldl addTag a) acc).Nodup := by
  induction dbs generalizing acc with
  | nil => simpa using h
  | cons d ds ih => exact ih _ (foldl_addTag_nodup _ _ h)

/-- C9: the aggregate tag list of single-file mode never contains a
duplicate, for every input entry list (entries sharing page tags
included), because each tag is appended only when absent; the per-entry
tag list of separate mode carries no such guarantee, as a page whose badge
repeats a baseline tag shows. -/
theorem C9_aggregate_tags_nodup :
    (∀ dbs : List PhysioNetDB, (aggregateTags dbs).Nodup)
    ∧ (∀ dbs r, singleRecord dbs = some r → r.Tags = aggregateTags dbs)
    ∧ (∃ (e : PhysioNetDB) (html : Node), ¬ (e.extract_tags html).tags.Nodup) := by
  refine ⟨?_, ?_, ?_⟩
  · intro dbs
    exact aggregate_fold_nodup dbs SINGLE_ENTRY_TAGS (by decide)
  · intro dbs r h
    unfold singleRecord at h
    cases hm : dbs.mapM (fun d => (d.generate_single_roda).map Prod.fst) with
    | none => rw [hm] at h; exact absurd h (by simp)
    | some resources =>
      rw [hm] at h
      cases h
      rfl
  · exact ⟨PhysioNetDB.init "x" "/content/x/1.0.0/" "X" "sd", dupBadgeDoc, by decide⟩

/-- C9 witness: on the empty entry list the shared record exists and its
tag list is the seeded aggregate. -/
theorem C9_witness :
    RodaRecord.Tags
        { Name := SINGLE_ENTRY_NAME
          Description := SINGLE_ENTRY_DESCRIPTION
          Documentation := SINGLE_ENTRY_DOCUMENTATION
          Contact := CONTACT_URL
          ManagedBy := DEFAULT_MANAGED_BY
          UpdateFrequency := UPDATE_FREQUENCY
          Tags := SINGLE_ENTRY_TAGS
          License := DEFAULT_LICENSE
          Resources := [] }
      = aggregateTags [] :=
  C9_aggregate_tags_nodup.2.1 []
    { Name := SINGLE_ENTRY_NAME
      Description := SINGLE_ENTRY_DESCRIPTION
      Documentation := SINGLE_ENTRY_DOCUMENTATION
      Contact := CONTACT_URL
      ManagedBy := DEFAULT_MANAGED_BY
      UpdateFrequency := UPDATE_FREQUENCY
      Tags := SINGLE_ENTRY_TAGS
      License := DEFAULT_LICENSE
      Resources := [] }
    rfl

/-- C10: generate_single_roda overwrites the Description of the entry's
own first resource descriptor in place with the short description and
returns that same descriptor, so a subsequent generate_separate_roda on
the entry reports the short description, not the construction-time default
Project data files that a fresh entry carries. -/
theorem C10_generate_single_mutation (e : PhysioNetDB) (r : Resource) (rest : List Resource)
    (h : e.resources = r :: rest) :
    e.generate_single_roda
      = some ({ r with Description := e.short_description },
              { e with resources := { r with Description := e.short_description } :: rest })
    ∧ ({ e with resources := { r with Description := e.short_description } :: rest }
        : PhysioNetDB).generate_separate_roda.Resources.head?.map Resource.Description
      = some e.short_description
    ∧ (∀ i u n s, (PhysioNetDB.init i u n s).resources.map Resource.Description
        = [DEFAULT_RESOURCE_DESCRIPTION]) := by
  refine ⟨?_, rfl, fun i u n s => rfl⟩
  unfold PhysioNetDB.generate_single_roda
  rw [h]

/-- C10 witness: on a fresh entry the returned descriptor and the entry's
stored descriptor both carry the short description. -/
theorem C10_witness :
    (PhysioNetDB.init "x" "/content/x/1.0.0/" "X" "short text").generate_single_roda
      = some ({ Description := "short text"
                ARN := "arn:aws:s3:::physionet-pds/x"
                Region := "us-east-1"
                Type' := "S3 Bucket" },
              { PhysioNetDB.init "x" "/content/x/1.0.0/" "X" "short text" with
                  resources := [{ Description := "short text"
                                  ARN := "arn:aws:s3:::physionet-pds/x"
                                  Region := "us-east-1"
                                  Type' := "S3 Bucket" }] }) :=
  (C10_generate_single_mutation (PhysioNetDB.init "x" "/content/x/1.0.0/" "X" "short text")
    { Description := DEFAULT_RESOURCE_DESCRIPTION
      ARN := "arn:aws:s3:::physionet-pds/x"
      Region := "us-east-1"
      Type' := "S3 Bucket" }
    [] rfl).1
